import Mathlib

/-!
Verification of the VoiceNotes Obsidian plugin (src/main.ts).

The plugin is shallowly embedded: every side effect (user notices, vault
writes, editor edits, HTTP requests, media calls) is reified as an `Effect`
value, and each method of `VoiceNotesPlugin` becomes a pure function from
the plugin state plus an environment (the outcomes of the external calls it
awaits) to a list of effects and a new state.  Binary data (`Uint8Array`,
`Blob` contents) is a `List Nat` of bytes; `TextEncoder.encode` is modelled
as the map sending each character to its code point, which is injective and
preserves all concatenation/length structure the theorems are about.
-/

namespace VoiceNotes

/-- Model of `TextEncoder.encode`: a string as the list of its character
codes (the byte-level UTF-8 details play no role in the claims). -/
def encodeStr (s : String) : List Nat :=
  s.data.map Char.toNat

/-- The CRLF line terminator used throughout the multipart body. -/
def crlf : String := "\r\n"

/-- Model of JavaScript `String.prototype.includes`: `sub` occurs as a
contiguous substring of `s`. -/
def strIncludes (s sub : String) : Bool :=
  s.data.tails.any (fun t => sub.data.isPrefixOf t)

/-- Model of JavaScript `String.prototype.trim`: whitespace characters are
removed from both ends. -/
def jsTrim (s : String) : String :=
  String.mk
    (((s.data.dropWhile Char.isWhitespace).reverse.dropWhile
      Char.isWhitespace).reverse)

/-- Model of `s.split(c).length` for a one-character separator: one more
than the number of occurrences of the separator. -/
def splitCount (s : String) (c : Char) : Nat :=
  s.data.count c + 1

/-! ## Multipart form-data assembly (`transcribeAudio`, src/main.ts:302-336) -/

/-- The filename chosen in `transcribeAudio` from the blob MIME type
(src/main.ts:293-298): default `audio.webm`, then the first matching
`includes` test wins. -/
def chooseFilename (blobType : String) : String :=
  if strIncludes blobType "webm" then "audio.webm"
  else if strIncludes blobType "mp3" || strIncludes blobType "mpeg" then "audio.mp3"
  else if strIncludes blobType "wav" then "audio.wav"
  else if strIncludes blobType "ogg" then "audio.ogg"
  else "audio.webm"

/-- The `formParts` array built in `transcribeAudio` (src/main.ts:305-325):
the twelve `formParts.push(...)` calls in source order. -/
def formParts (boundary filename blobType : String) (audioBytes : List Nat) :
    List (List Nat) :=
  [ encodeStr ("--" ++ boundary ++ crlf)
  , encodeStr ("Content-Disposition: form-data; name=\"file\"; filename=\"" ++
      filename ++ "\"" ++ crlf)
  , encodeStr ("Content-Type: " ++ blobType ++ crlf ++ crlf)
  , audioBytes
  , encodeStr crlf
  , encodeStr ("--" ++ boundary ++ crlf)
  , encodeStr ("Content-Disposition: form-data; name=\"model\"" ++ crlf ++ crlf)
  , encodeStr ("whisper-1" ++ crlf)
  , encodeStr ("--" ++ boundary ++ crlf)
  , encodeStr ("Content-Disposition: form-data; name=\"language\"" ++ crlf ++ crlf)
  , encodeStr ("zh" ++ crlf)
  , encodeStr ("--" ++ boundary ++ "--" ++ crlf) ]

/-- `totalLength` from src/main.ts:328: the sum of the part lengths. -/
def totalLength (parts : List (List Nat)) : Nat :=
  (parts.map List.length).sum

/-- Model of `Uint8Array.prototype.set(part, off)` on a buffer large enough
to hold `part` at offset `off` (the merge loop allocates exactly
`totalLength` bytes, so every `set` is in bounds). -/
def setRange (buf : List Nat) (off : Nat) (part : List Nat) : List Nat :=
  buf.take off ++ part ++ buf.drop (off + part.length)

/-- The `for (const part of formParts)` merge loop of src/main.ts:330-335,
carrying the buffer and the running offset. -/
def mergeLoop (parts : List (List Nat)) (buf : List Nat) (off : Nat) : List Nat :=
  match parts with
  | [] => buf
  | p :: rest => mergeLoop rest (setRange buf off p) (off + p.length)

/-- `formDataBuffer` as built in src/main.ts:328-335: a zero-filled buffer
of `totalLength` bytes, filled by the merge loop starting at offset 0. -/
def mergeParts (parts : List (List Nat)) : List Nat :=
  mergeLoop parts (List.replicate (totalLength parts) 0) 0

/-- The offset at which part `i` is written: the total length of the parts
before it. -/
def prefixLen (parts : List (List Nat)) (i : Nat) : Nat :=
  totalLength (parts.take i)

/-! ## Settings (src/main.ts:3-11, 103-109) -/

/-- The `VoiceNotesSettings` interface. -/
structure VoiceNotesSettings where
  openaiApiKey : String
  enableTranscription : Bool
deriving DecidableEq

/-- `DEFAULT_SETTINGS` (src/main.ts:8-11). -/
def DEFAULT_SETTINGS : VoiceNotesSettings :=
  { openaiApiKey := "", enableTranscription := false }

/-- A stored settings object as returned by `loadData()`: each field may be
present or absent (the whole object may also be absent, i.e. `null`). -/
structure StoredData where
  openaiApiKey : Option String
  enableTranscription : Option Bool
deriving DecidableEq

/-- `loadSettings` (src/main.ts:103-105): `Object.assign({}, DEFAULT_SETTINGS,
await this.loadData())` — each field present in the stored data overrides the
default; an absent field (or absent object) keeps the default. -/
def loadSettings (stored : Option StoredData) : VoiceNotesSettings :=
  match stored with
  | none => DEFAULT_SETTINGS
  | some d =>
    { openaiApiKey := d.openaiApiKey.getD DEFAULT_SETTINGS.openaiApiKey
      enableTranscription :=
        d.enableTranscription.getD DEFAULT_SETTINGS.enableTranscription }

/-- `saveSettings` (src/main.ts:107-109): `saveData(this.settings)` — the
persisted value is exactly the current settings object. -/
def saveSettings (s : VoiceNotesSettings) : VoiceNotesSettings := s

/-! ## Recording state (src/main.ts:13-21) -/

/-- A binary blob: its byte contents and its MIME type.  `size` in the
source is `data.length` here. -/
structure Blob where
  data : List Nat
  type : String
deriving DecidableEq

/-- The `RecordingState` class (src/main.ts:13-21).  `mediaRecorder` and
`stream` are tracked only as presence (the plugin never inspects them beyond
null checks and forwarding calls). -/
structure RecordingState where
  isRecording : Bool
  mediaRecorder : Bool
  stream : Option Nat
  audioChunks : List Blob
  startTime : Nat
  mimeType : String
deriving DecidableEq

/-- `new RecordingState()`: the field initializers of src/main.ts:14-20. -/
def RecordingState.init : RecordingState :=
  { isRecording := false, mediaRecorder := false, stream := none,
    audioChunks := [], startTime := 0, mimeType := "audio/webm" }

/-- The plugin state the claims range over: the settings and the recording
state. -/
structure PluginState where
  settings : VoiceNotesSettings
  recordingState : RecordingState
deriving DecidableEq

/-! ## Effects -/

/-- Reified side effects of the plugin methods, in the order they are
performed. -/
inductive Effect where
  | notice (msg : String)
  | getUserMedia
  | recorderStart
  | recorderStop
  | trackStop
  | updateStatusBar
  | createBinary (path : String) (data : List Nat)
  | insertText (text : String)
  | apiRequest (body : List Nat)
  | replaceRange (text : String) (line col : Nat)
  | setCursor (line col : Nat)
deriving DecidableEq

/-! ## transcribeAudio (src/main.ts:286-373) -/

/-- The error object caught from `requestUrl`: an optional HTTP status and
an optional message. -/
structure HttpErr where
  status : Option Nat
  message : Option String
deriving DecidableEq

/-- The successful `requestUrl` response, reduced to the field the code
reads: `response.json.text` when present and truthy. -/
structure TranscriptionResp where
  text : Option String
deriving DecidableEq

/-- The error-message mapping of the catch block (src/main.ts:355-368):
status 401/429/403 get fixed texts, otherwise a truthy `error.message` is
forwarded, otherwise the generic text. -/
def mapHttpErr (e : HttpErr) : String :=
  if e.status = some 401 then "Invalid API Key or unauthorized"
  else if e.status = some 429 then
    "API request rate limit exceeded, please try again later"
  else if e.status = some 403 then
    "API access denied, please check API Key permissions"
  else
    match e.message with
    | some m => if m ≠ "" then m else "Transcription failed"
    | none => "Transcription failed"

/-- The environment `transcribeAudio` draws on: the random boundary string
and the outcome of the `requestUrl` call. -/
structure TranscribeEnv where
  boundary : String
  httpOutcome : Except HttpErr TranscriptionResp

/-- `transcribeAudio` (src/main.ts:286-373).  Returns the effects performed
and either the trimmed transcription text or the thrown error message.  With
an empty API key it throws before any request; otherwise it assembles the
multipart body, issues the request, and either trims a truthy `json.text`,
throws on a missing/empty one, or maps the HTTP error through the catch
block (the format error thrown inside the try is re-thrown by the catch
with the same message). -/
def transcribeAudio (settings : VoiceNotesSettings) (blob : Blob)
    (env : TranscribeEnv) : List Effect × Except String String :=
  if settings.openaiApiKey = "" then
    ([], .error "OpenAI API Key not configured")
  else
    let filename := chooseFilename blob.type
    let body := mergeParts (formParts env.boundary filename blob.type blob.data)
    match env.httpOutcome with
    | .ok resp =>
      ([.apiRequest body],
        match resp.text with
        | some t =>
          if t ≠ "" then .ok (jsTrim t)
          else .error "Invalid transcription result format"
        | none => .error "Invalid transcription result format")
    | .error e => ([.apiRequest body], .error (mapHttpErr e))

/-! ## saveAudioFile (src/main.ts:250-284) -/

/-- The environment `saveAudioFile` draws on: the active file's folder path
(`''` when there is none), the ISO timestamp string, and the outcome of
`vault.createBinary`. -/
structure SaveEnv where
  folderPath : String
  isoTimestamp : String
  createOutcome : Except String Unit

/-- `new Date().toISOString().replace(/[:.]/g, '-')` (src/main.ts:260). -/
def sanitizeTs (s : String) : String :=
  String.mk (s.data.map (fun c => if c = ':' ∨ c = '.' then '-' else c))

/-- The file extension chosen in `saveAudioFile` (src/main.ts:253-257). -/
def chooseExtension (blobType : String) : String :=
  if strIncludes blobType "webm" then ".webm"
  else if strIncludes blobType "mp3" || strIncludes blobType "mpeg" then ".mp3"
  else if strIncludes blobType "wav" then ".wav"
  else if strIncludes blobType "ogg" then ".ogg"
  else ".webm"

/-- The generated filename `voice-note-<timestamp><extension>`
(src/main.ts:261). -/
def audioFileName (blobType : String) (env : SaveEnv) : String :=
  "voice-note-" ++ sanitizeTs env.isoTimestamp ++ chooseExtension blobType

/-- The full path (src/main.ts:270): prefixed by the folder when it is
non-empty. -/
def audioFilePath (blobType : String) (env : SaveEnv) : String :=
  if env.folderPath ≠ "" then
    env.folderPath ++ "/" ++ audioFileName blobType env
  else audioFileName blobType env

/-- `saveAudioFile` (src/main.ts:250-284): attempts `createBinary` and
returns the markdown link, or on failure emits one notice and returns
`none` (null). -/
def saveAudioFile (blob : Blob) (env : SaveEnv) : List Effect × Option String :=
  let filename := audioFileName blob.type env
  let path := audioFilePath blob.type env
  match env.createOutcome with
  | .ok _ =>
    ([.createBinary path blob.data], some ("![" ++ filename ++ "](" ++ path ++ ")"))
  | .error e =>
    ([.createBinary path blob.data,
      .notice ("❌ Failed to save audio file: " ++ e)], none)

/-! ## processRecording (src/main.ts:214-248) -/

/-- The environment `processRecording` draws on: the environments of the two
external steps it performs. -/
structure ProcEnv where
  saveEnv : SaveEnv
  transcribeEnv : TranscribeEnv

/-- The blob assembled by `new Blob(audioChunks, { type: mimeType })`
(src/main.ts:220-222): the chunks concatenated in arrival order, typed with
the session MIME type. -/
def assembleBlob (rs : RecordingState) : Blob :=
  { data := (rs.audioChunks.map Blob.data).flatten, type := rs.mimeType }

/-- `processRecording` (src/main.ts:214-248): bail out on an empty chunk
list; otherwise assemble the blob, save it (inserting the link when one is
returned), then — only when transcription is enabled and a key is present —
transcribe it, inserting a truthy result or noticing the failure; finally
clear the chunk list. -/
def processRecording (st : PluginState) (env : ProcEnv) :
    List Effect × PluginState :=
  let rs := st.recordingState
  if rs.audioChunks.length = 0 then
    ([.notice "❌ Recording data is empty"], st)
  else
    let audioBlob := assembleBlob rs
    let save := saveAudioFile audioBlob env.saveEnv
    let linkEffects :=
      match save.2 with
      | some audioLink => [.insertText ("### Voice Note\n" ++ audioLink ++ "\n\n")]
      | none => []
    let transcriptionEffects :=
      if st.settings.enableTranscription && st.settings.openaiApiKey != "" then
        let tr := transcribeAudio st.settings audioBlob env.transcribeEnv
        [.notice "🔄 Transcribing..."] ++ tr.1 ++
          match tr.2 with
          | .ok t =>
            if t ≠ "" then
              [.insertText ("**Transcription:**\n" ++ t ++ "\n\n"),
               .notice "✅ Transcription completed"]
            else []
          | .error e => [.notice ("❌ Transcription failed: " ++ e)]
      else []
    (save.1 ++ linkEffects ++ transcriptionEffects,
     { st with recordingState := { rs with audioChunks := [] } })

/-! ## startRecording / stopRecording / toggleRecording (src/main.ts:111-212) -/

/-- The `formatOptions` array (src/main.ts:131-137). -/
def formatOptions : List (String × String) :=
  [ ("audio/webm;codecs=opus", ".webm")
  , ("audio/webm", ".webm")
  , ("audio/mpeg", ".mp3")
  , ("audio/wav", ".wav")
  , ("audio/ogg;codecs=opus", ".ogg") ]

/-- The format-selection loop (src/main.ts:139-145): the first supported
option, else the `audio/webm` default. -/
def selectFormat (supported : String → Bool) : String × String :=
  (formatOptions.find? (fun f => supported f.1)).getD ("audio/webm", ".webm")

/-- The environment `startRecording` draws on: the `getUserMedia` outcome
(an abstract stream handle or the thrown error message),
`MediaRecorder.isTypeSupported`, and `Date.now()`. -/
structure StartEnv where
  media : Except String Nat
  supported : String → Bool
  now : Nat

/-- `startRecording` (src/main.ts:119-190): a notice when already
recording; on a `getUserMedia` failure one notice with the error message;
on success a fresh `RecordingState` with the flag set, the timestamp, the
stream and the negotiated MIME type, and the recorder started. -/
def startRecording (st : PluginState) (env : StartEnv) :
    List Effect × PluginState :=
  if st.recordingState.isRecording then
    ([.notice "Already recording..."], st)
  else
    match env.media with
    | .error e =>
      ([.getUserMedia, .notice ("Cannot access microphone: " ++ e)], st)
    | .ok stream =>
      let fmt := selectFormat env.supported
      ([.getUserMedia, .recorderStart, .updateStatusBar,
        .notice "🔴 Recording started..."],
       { st with recordingState :=
          { isRecording := true, mediaRecorder := true, stream := some stream,
            audioChunks := [], startTime := env.now, mimeType := fmt.1 } })

/-- `stopRecording` (src/main.ts:192-212): returns immediately when idle;
otherwise clears the flag, stops the recorder and the stream tracks when
present, resets the status bar and notices. -/
def stopRecording (st : PluginState) : List Effect × PluginState :=
  if !st.recordingState.isRecording then
    ([], st)
  else
    let rs := st.recordingState
    ((if rs.mediaRecorder then [.recorderStop] else []) ++
      (match rs.stream with
       | some _ => [.trackStop]
       | none => []) ++
      [.updateStatusBar, .notice "🛑 Recording stopped"],
     { st with recordingState := { rs with isRecording := false } })

/-- `toggleRecording` (src/main.ts:111-117). -/
def toggleRecording (st : PluginState) (env : StartEnv) :
    List Effect × PluginState :=
  if st.recordingState.isRecording then stopRecording st
  else startRecording st env

/-- The `ondataavailable` callback (src/main.ts:167-171): the fragment is
appended only when it exists and its size is strictly positive. -/
def onDataAvailable (st : PluginState) (eventData : Option Blob) : PluginState :=
  match eventData with
  | some b =>
    if 0 < b.data.length then
      { st with recordingState :=
        { st.recordingState with
          audioChunks := st.recordingState.audioChunks ++ [b] } }
    else st
  | none => st

/-! ## insertTextToEditor (src/main.ts:375-402) -/

/-- The active leaf's view, reduced to what the code reads: its view type
and, when found, the editor's cursor position (line, ch). -/
structure EditorView where
  viewType : String
  editor : Option (Nat × Nat)
deriving DecidableEq

/-- The workspace environment `insertTextToEditor` draws on. -/
structure EditorEnv where
  activeLeaf : Option EditorView
deriving DecidableEq

/-- `insertTextToEditor` (src/main.ts:375-402): no-op on blank text
(`!text || text.trim() === ''`); notices when no leaf, a non-markdown view,
or no editor; otherwise inserts the trimmed text plus one newline at the
cursor and moves the cursor to column 0 of the line past the inserted
lines. -/
def insertTextToEditor (text : String) (env : EditorEnv) : List Effect :=
  if jsTrim text = "" then []
  else
    match env.activeLeaf with
    | none => [.notice "❌ No active note page"]
    | some v =>
      if v.viewType ≠ "markdown" then
        [.notice "❌ Current page is not a Markdown note"]
      else
        match v.editor with
        | none => [.notice "❌ Cannot find editor"]
        | some cursor =>
          let textToInsert := jsTrim text ++ "\n"
          [.replaceRange textToInsert cursor.1 cursor.2,
           .setCursor (cursor.1 + splitCount textToInsert (Char.ofNat 10) - 1) 0]

/-! ## Correctness of the multipart merge loop -/

/-- The merge loop, run at offset `pre.length` over a buffer `pre ++ suf`
with exactly as much room left as the parts need, overwrites `suf` with the
concatenation of the parts. -/
theorem mergeLoop_spec (parts : List (List Nat)) :
    ∀ (pre suf : List Nat), suf.length = totalLength parts →
      mergeLoop parts (pre ++ suf) pre.length = pre ++ parts.flatten := by
  induction parts with
  | nil =>
    intro pre suf h
    simp [totalLength] at h
    simp [mergeLoop, h]
  | cons p rest ih =>
    intro pre suf h
    have hcons : suf.length = p.length + totalLength rest := by
      simpa [totalLength] using h
    have hdrop : (pre ++ suf).drop (pre.length + p.length) = suf.drop p.length := by
      rw [← List.drop_drop, List.drop_left]
    show mergeLoop rest (setRange (pre ++ suf) pre.length p) (pre.length + p.length) =
      pre ++ (p :: rest).flatten
    rw [setRange, List.take_left, hdrop]
    have h2 : (suf.drop p.length).length = totalLength rest := by
      simp [hcons]
    have := ih (pre ++ p) (suf.drop p.length) h2
    simpa [List.append_assoc, List.length_append] using this

/-- `formDataBuffer` is the in-order concatenation of the parts. -/
theorem mergeParts_eq_flatten (parts : List (List Nat)) :
    mergeParts parts = parts.flatten := by
  have := mergeLoop_spec parts [] (List.replicate (totalLength parts) 0) (by simp)
  simpa [mergeParts] using this

/-- In the concatenation of the parts, part `i` occupies the range starting
at the total length of the parts before it. -/
theorem flatten_extract (parts : List (List Nat)) :
    ∀ i, (parts.flatten.drop (prefixLen parts i)).take (parts.getD i []).length =
      parts.getD i [] := by
  induction parts with
  | nil => intro i; simp [prefixLen, totalLength]
  | cons p rest ih =>
    intro i
    cases i with
    | zero =>
      simp [prefixLen, totalLength, List.take_left]
    | succ n =>
      have h1 : prefixLen (p :: rest) (n + 1) = p.length + prefixLen rest n := by
        simp [prefixLen, totalLength]
      rw [h1, List.flatten_cons, ← List.drop_drop, List.drop_left,
        List.getD_cons_succ]
      exact ih n

/-- C1: for every audio byte sequence, blob MIME type and boundary string,
`transcribeAudio` assembles the request body as the exact in-order
concatenation of the file part (boundary line, Content-Disposition header
with name "file" and the chosen filename, Content-Type header with the
blob's type, a blank line, the audio bytes, CRLF), the model part with
value "whisper-1", the language part with value "zh", and the closing
delimiter; the merged buffer's length equals the sum of the part lengths
and each part starts at the offset equal to the total length of the parts
before it. -/
theorem multipart_body_spec (boundary blobType : String) (audioBytes : List Nat) :
    mergeParts (formParts boundary (chooseFilename blobType) blobType audioBytes) =
      encodeStr ("--" ++ boundary ++ crlf) ++
      encodeStr ("Content-Disposition: form-data; name=\"file\"; filename=\"" ++
        chooseFilename blobType ++ "\"" ++ crlf) ++
      encodeStr ("Content-Type: " ++ blobType ++ crlf ++ crlf) ++
      audioBytes ++
      encodeStr crlf ++
      encodeStr ("--" ++ boundary ++ crlf) ++
      encodeStr ("Content-Disposition: form-data; name=\"model\"" ++ crlf ++ crlf) ++
      encodeStr ("whisper-1" ++ crlf) ++
      encodeStr ("--" ++ boundary ++ crlf) ++
      encodeStr ("Content-Disposition: form-data; name=\"language\"" ++ crlf ++ crlf) ++
      encodeStr ("zh" ++ crlf) ++
      encodeStr ("--" ++ boundary ++ "--" ++ crlf) ∧
    (mergeParts (formParts boundary (chooseFilename blobType) blobType
        audioBytes)).length =
      totalLength (formParts boundary (chooseFilename blobType) blobType
        audioBytes) ∧
    ∀ i,
      ((mergeParts (formParts boundary (chooseFilename blobType) blobType
          audioBytes)).drop
        (prefixLen (formParts boundary (chooseFilename blobType) blobType
          audioBytes) i)).take
        ((( formParts boundary (chooseFilename blobType) blobType
          audioBytes).getD i []).length) =
      (formParts boundary (chooseFilename blobType) blobType audioBytes).getD
        i [] := by
  refine ⟨?_, ?_, ?_⟩
  · rw [mergeParts_eq_flatten]
    simp [formParts, List.append_assoc]
  · rw [mergeParts_eq_flatten]
    simp [totalLength, List.length_flatten]
  · intro i
    rw [mergeParts_eq_flatten]
    exact flatten_extract _ i

/-! ## String helper lemmas -/

/-- Two string concatenations differ when their left parts disagree at an
index present in both. -/
theorem append_ne_of_data_ne (s t x y : String) (n : Nat)
    (hs : n < s.data.length) (ht : n < t.data.length)
    (hne : s.data[n]? ≠ t.data[n]?) : s ++ x ≠ t ++ y := by
  intro h
  have hd : s.data ++ x.data = t.data ++ y.data := by
    have := congrArg String.data h
    simpa [String.data_append] using this
  have h1 : (s.data ++ x.data)[n]? = s.data[n]? := List.getElem?_append_left hs
  have h2 : (t.data ++ y.data)[n]? = t.data[n]? := List.getElem?_append_left ht
  exact hne (by rw [← h1, hd, h2])

/-- The save-failure notice text is never the transcription-failure notice
text, whatever the error messages. -/
theorem saveNotice_ne_transcribeNotice (x y : String) :
    "❌ Failed to save audio file: " ++ x ≠ "❌ Transcription failed: " ++ y :=
  append_ne_of_data_ne _ _ _ _ 2 (by decide) (by decide) (by decide)

/-- The progress notice text is never the transcription-failure notice
text. -/
theorem progressNotice_ne_transcribeNotice (y : String) :
    "🔄 Transcribing..." ≠ "❌ Transcription failed: " ++ y := by
  have h : ("🔄 Transcribing..." ++ "" : String) ≠
      "❌ Transcription failed: " ++ y :=
    append_ne_of_data_ne _ _ _ _ 0 (by decide) (by decide) (by decide)
  simpa using h

/-- C7: `loadSettings` produces the stored settings merged over the
defaults — each field present in the stored data overrides the default and
each absent field (or wholly absent data) takes its default, the defaults
being the empty credential and transcription disabled; `saveSettings`
persists exactly the current settings object. -/
theorem settings_merge (d : StoredData) (s : VoiceNotesSettings) :
    (loadSettings (some d)).openaiApiKey =
      d.openaiApiKey.getD DEFAULT_SETTINGS.openaiApiKey ∧
    (loadSettings (some d)).enableTranscription =
      d.enableTranscription.getD DEFAULT_SETTINGS.enableTranscription ∧
    loadSettings none = DEFAULT_SETTINGS ∧
    DEFAULT_SETTINGS = ⟨"", false⟩ ∧
    saveSettings s = s :=
  ⟨rfl, rfl, rfl, rfl, rfl⟩

/-- C2: a non-empty API credential is a precondition for transcription —
`transcribeAudio` throws "OpenAI API Key not configured" (performing no
effect) whenever the key is the empty string, and `processRecording` issues
an API request only when transcription is enabled and the key is
non-empty. -/
theorem transcription_requires_key (settings : VoiceNotesSettings)
    (blob : Blob) (env : TranscribeEnv) (st : PluginState) (penv : ProcEnv) :
    (settings.openaiApiKey = "" →
      transcribeAudio settings blob env =
        ([], .error "OpenAI API Key not configured")) ∧
    (∀ body, Effect.apiRequest body ∈ (processRecording st penv).1 →
      st.settings.enableTranscription = true ∧
      st.settings.openaiApiKey ≠ "") := by
  constructor
  · intro h
    simp [transcribeAudio, h]
  · intro body hmem
    by_cases hc : st.recordingState.audioChunks.length = 0
    · simp [processRecording, hc] at hmem
    · by_cases he :
        (st.settings.enableTranscription && st.settings.openaiApiKey != "") = true
      · simpa using he
      · exfalso
        cases hsave : penv.saveEnv.createOutcome with
        | ok u =>
          simp [processRecording, hc, he, saveAudioFile, hsave] at hmem
        | error e =>
          simp [processRecording, hc, he, saveAudioFile, hsave] at hmem

set_option maxRecDepth 10000 in
theorem transcription_requires_key_witness :
    transcribeAudio ⟨"", true⟩ ⟨[1], "w"⟩ ⟨"b", .ok ⟨some "hi"⟩⟩ =
      ([], .error "OpenAI API Key not configured") ∧
    ((⟨⟨"k", true⟩,
        { RecordingState.init with audioChunks := [⟨[7], "w"⟩] }⟩ :
        PluginState).settings.enableTranscription = true ∧
      (⟨⟨"k", true⟩,
        { RecordingState.init with audioChunks := [⟨[7], "w"⟩] }⟩ :
        PluginState).settings.openaiApiKey ≠ "") := by
  constructor
  · exact (transcription_requires_key ⟨"", true⟩ ⟨[1], "w"⟩
      ⟨"b", .ok ⟨some "hi"⟩⟩
      ⟨⟨"k", true⟩, RecordingState.init⟩
      ⟨⟨"", "", .ok ()⟩, ⟨"b", .ok ⟨some "hi"⟩⟩⟩).1 rfl
  · exact (transcription_requires_key ⟨"", true⟩ ⟨[1], "w"⟩
      ⟨"b", .ok ⟨some "hi"⟩⟩
      ⟨⟨"k", true⟩, { RecordingState.init with audioChunks := [⟨[7], "w"⟩] }⟩
      ⟨⟨"", "", .ok ()⟩, ⟨"b", .ok ⟨some "hi"⟩⟩⟩).2
      (mergeParts (formParts "b" "audio.webm" "audio/webm" [7])) (by decide)

/-- C3: the session is a two-state machine guarded by the single
`isRecording` flag — `toggleRecording` calls `stopRecording` exactly when
the flag is set and `startRecording` exactly when it is clear;
`startRecording` while recording only emits a notice and leaves the state
unchanged; `stopRecording` while idle returns immediately with no effect
and leaves the state unchanged. -/
theorem toggle_two_state (st : PluginState) (env : StartEnv) :
    toggleRecording st env =
      (if st.recordingState.isRecording then stopRecording st
       else startRecording st env) ∧
    (st.recordingState.isRecording = true →
      startRecording st env = ([.notice "Already recording..."], st)) ∧
    (st.recordingState.isRecording = false → stopRecording st = ([], st)) := by
  refine ⟨rfl, ?_, ?_⟩
  · intro h
    simp [startRecording, h]
  · intro h
    simp [stopRecording, h]

theorem toggle_two_state_witness :
    startRecording
        ⟨⟨"", false⟩, { RecordingState.init with isRecording := true }⟩
        ⟨.ok 0, fun _ => false, 0⟩ =
      ([.notice "Already recording..."],
        ⟨⟨"", false⟩, { RecordingState.init with isRecording := true }⟩) ∧
    stopRecording ⟨⟨"", false⟩, RecordingState.init⟩ =
      ([], ⟨⟨"", false⟩, RecordingState.init⟩) := by
  constructor
  · exact (toggle_two_state
      ⟨⟨"", false⟩, { RecordingState.init with isRecording := true }⟩
      ⟨.ok 0, fun _ => false, 0⟩).2.1 rfl
  · exact (toggle_two_state ⟨⟨"", false⟩, RecordingState.init⟩
      ⟨.ok 0, fun _ => false, 0⟩).2.2 rfl

/-- C9: when the fragment sequence is empty, `processRecording` emits the
"Recording data is empty" notice and returns with the state unchanged,
creating no file, issuing no API request and inserting no text. -/
theorem empty_chunks_early_return (st : PluginState) (env : ProcEnv)
    (h : st.recordingState.audioChunks = []) :
    processRecording st env = ([.notice "❌ Recording data is empty"], st) ∧
    (∀ p d, Effect.createBinary p d ∉ (processRecording st env).1) ∧
    (∀ b, Effect.apiRequest b ∉ (processRecording st env).1) ∧
    (∀ t, Effect.insertText t ∉ (processRecording st env).1) := by
  have h0 : st.recordingState.audioChunks.length = 0 := by simp [h]
  have heq : processRecording st env =
      ([.notice "❌ Recording data is empty"], st) := by
    simp [processRecording, h0]
  refine ⟨heq, fun p d => ?_, fun b => ?_, fun t => ?_⟩ <;>
    rw [heq] <;> simp

theorem empty_chunks_early_return_witness :
    processRecording ⟨⟨"k", true⟩, RecordingState.init⟩
        ⟨⟨"", "", .ok ()⟩, ⟨"b", .ok ⟨some "hi"⟩⟩⟩ =
      ([.notice "❌ Recording data is empty"],
        ⟨⟨"k", true⟩, RecordingState.init⟩) :=
  (empty_chunks_early_return ⟨⟨"k", true⟩, RecordingState.init⟩
    ⟨⟨"", "", .ok ()⟩, ⟨"b", .ok ⟨some "hi"⟩⟩⟩ rfl).1

/-- C10: `insertTextToEditor` is a no-op for a string that is empty or all
whitespace; for any other string, with a markdown editor active it inserts
the trimmed text followed by exactly one trailing newline at the cursor
position and moves the cursor to column 0 past the inserted lines. -/
theorem insert_text_spec (text : String) (env : EditorEnv) :
    (jsTrim text = "" → insertTextToEditor text env = []) ∧
    (∀ line col, jsTrim text ≠ "" →
      env.activeLeaf = some ⟨"markdown", some (line, col)⟩ →
      insertTextToEditor text env =
        [Effect.replaceRange (jsTrim text ++ "\n") line col,
         Effect.setCursor
           (line + splitCount (jsTrim text ++ "\n") (Char.ofNat 10) - 1)
           0]) := by
  constructor
  · intro h
    simp [insertTextToEditor, h]
  · intro line col h hleaf
    simp [insertTextToEditor, h, hleaf]

theorem insert_text_spec_witness :
    insertTextToEditor "  " ⟨some ⟨"markdown", some (3, 2)⟩⟩ = [] ∧
    insertTextToEditor " hi " ⟨some ⟨"markdown", some (3, 2)⟩⟩ =
      [Effect.replaceRange "hi\n" 3 2, Effect.setCursor 4 0] := by
  constructor
  · exact (insert_text_spec "  " ⟨some ⟨"markdown", some (3, 2)⟩⟩).1 (by decide)
  · exact (insert_text_spec " hi " ⟨some ⟨"markdown", some (3, 2)⟩⟩).2
      3 2 (by decide) rfl

/-- C4: the session follows the stated lifecycle — every successful start
installs a fresh session (flag flipped to true, empty fragment sequence,
start timestamp and negotiated encoding set); stopping never touches the
fragment sequence and the fragment sequence is otherwise mutated only by
the fragment-arrival callback (which appends one valid fragment or nothing);
once the composed file is produced by `processRecording` the fragment
sequence is consumed and cleared. -/
theorem session_lifecycle (st : PluginState) (env : StartEnv) (stream : Nat)
    (penv : ProcEnv) (b : Blob) :
    (st.recordingState.isRecording = false → env.media = .ok stream →
      (startRecording st env).2.recordingState =
        { isRecording := true, mediaRecorder := true, stream := some stream,
          audioChunks := [], startTime := env.now,
          mimeType := (selectFormat env.supported).1 }) ∧
    ((stopRecording st).2.recordingState.audioChunks =
      st.recordingState.audioChunks) ∧
    (onDataAvailable st (some b) =
      if 0 < b.data.length then
        { st with recordingState :=
          { st.recordingState with
            audioChunks := st.recordingState.audioChunks ++ [b] } }
      else st) ∧
    (onDataAvailable st none = st) ∧
    (st.recordingState.audioChunks ≠ [] →
      (processRecording st penv).2.recordingState.audioChunks = [] ∧
      Effect.createBinary
          (audioFilePath (assembleBlob st.recordingState).type penv.saveEnv)
          (assembleBlob st.recordingState).data ∈
        (processRecording st penv).1) := by
  refine ⟨?_, ?_, rfl, rfl, ?_⟩
  · intro h hm
    simp [startRecording, h, hm]
  · by_cases h : st.recordingState.isRecording <;> simp [stopRecording, h]
  · intro h
    have h0 : ¬ st.recordingState.audioChunks.length = 0 := by simpa using h
    constructor
    · simp [processRecording, h0]
    · cases hsave : penv.saveEnv.createOutcome <;>
        simp [processRecording, h0, saveAudioFile, hsave]

set_option maxRecDepth 10000 in
theorem session_lifecycle_witness :
    (startRecording ⟨⟨"", false⟩, RecordingState.init⟩
        ⟨.ok 5, fun _ => false, 42⟩).2.recordingState =
      { isRecording := true, mediaRecorder := true, stream := some 5,
        audioChunks := [], startTime := 42, mimeType := "audio/webm" } ∧
    ((processRecording
        ⟨⟨"", false⟩, { RecordingState.init with audioChunks := [⟨[9], "w"⟩] }⟩
        ⟨⟨"", "", .ok ()⟩, ⟨"b", .ok ⟨none⟩⟩⟩).2.recordingState.audioChunks =
      ([] : List Blob) ∧
     Effect.createBinary
        (audioFilePath
          (assembleBlob { RecordingState.init with audioChunks := [⟨[9], "w"⟩] }).type
          ⟨"", "", .ok ()⟩)
        (assembleBlob
          { RecordingState.init with audioChunks := [⟨[9], "w"⟩] }).data ∈
      (processRecording
        ⟨⟨"", false⟩, { RecordingState.init with audioChunks := [⟨[9], "w"⟩] }⟩
        ⟨⟨"", "", .ok ()⟩, ⟨"b", .ok ⟨none⟩⟩⟩).1) := by
  constructor
  · exact (session_lifecycle ⟨⟨"", false⟩, RecordingState.init⟩
      ⟨.ok 5, fun _ => false, 42⟩ 5
      ⟨⟨"", "", .ok ()⟩, ⟨"b", .ok ⟨none⟩⟩⟩ ⟨[1], "w"⟩).1 rfl rfl
  · exact (session_lifecycle
      ⟨⟨"", false⟩, { RecordingState.init with audioChunks := [⟨[9], "w"⟩] }⟩
      ⟨.ok 5, fun _ => false, 42⟩ 5
      ⟨⟨"", "", .ok ()⟩, ⟨"b", .ok ⟨none⟩⟩⟩ ⟨[1], "w"⟩).2.2.2.2 (by decide)

/-- C5: on stop, for every non-empty fragment sequence, the assembled blob
is the in-order concatenation of the buffered fragments typed with the
session's negotiated MIME type, and that single blob is handed first to the
file save (whose returned link, if any, is inserted into the editor) and
then — only if transcription is enabled and a credential is present — to
the transcription call. -/
theorem process_order (st : PluginState) (penv : ProcEnv)
    (h : st.recordingState.audioChunks ≠ []) :
    processRecording st penv =
      ((saveAudioFile (assembleBlob st.recordingState) penv.saveEnv).1 ++
        (match (saveAudioFile (assembleBlob st.recordingState)
            penv.saveEnv).2 with
         | some audioLink =>
           [Effect.insertText ("### Voice Note\n" ++ audioLink ++ "\n\n")]
         | none => []) ++
        (if st.settings.enableTranscription &&
            st.settings.openaiApiKey != "" then
          [Effect.notice "🔄 Transcribing..."] ++
            (transcribeAudio st.settings (assembleBlob st.recordingState)
              penv.transcribeEnv).1 ++
            (match (transcribeAudio st.settings
                (assembleBlob st.recordingState) penv.transcribeEnv).2 with
             | .ok t =>
               if t ≠ "" then
                 [Effect.insertText ("**Transcription:**\n" ++ t ++ "\n\n"),
                  Effect.notice "✅ Transcription completed"]
               else []
             | .error e => [Effect.notice ("❌ Transcription failed: " ++ e)])
         else []),
       { st with recordingState :=
          { st.recordingState with audioChunks := [] } }) ∧
    assembleBlob st.recordingState =
      { data := (st.recordingState.audioChunks.map Blob.data).flatten,
        type := st.recordingState.mimeType } := by
  have h0 : ¬ st.recordingState.audioChunks.length = 0 := by simpa using h
  constructor
  · unfold processRecording
    rw [if_neg h0]
  · rfl

set_option maxRecDepth 10000 in
theorem process_order_witness :
    processRecording
        ⟨⟨"k", true⟩,
          { RecordingState.init with
            audioChunks := [⟨[1], "w"⟩, ⟨[2, 3], "w"⟩] }⟩
        ⟨⟨"f", "T", .ok ()⟩, ⟨"b", .error ⟨some 500, some "boom"⟩⟩⟩ =
      ([Effect.createBinary "f/voice-note-T.webm" [1, 2, 3],
        Effect.insertText
          "### Voice Note\n![voice-note-T.webm](f/voice-note-T.webm)\n\n",
        Effect.notice "🔄 Transcribing...",
        Effect.apiRequest
          (mergeParts (formParts "b" "audio.webm" "audio/webm" [1, 2, 3])),
        Effect.notice "❌ Transcription failed: boom"],
       ⟨⟨"k", true⟩, RecordingState.init⟩) := by
  exact (process_order
    ⟨⟨"k", true⟩,
      { RecordingState.init with audioChunks := [⟨[1], "w"⟩, ⟨[2, 3], "w"⟩] }⟩
    ⟨⟨"f", "T", .ok ()⟩, ⟨"b", .error ⟨some 500, some "boom"⟩⟩⟩
    (by decide)).1.trans (by decide)

/-- C6: every failing external call produces exactly one user notice
carrying the error's message and is never retried — a `getUserMedia`
failure yields one attempt and one notice; a `createBinary` failure yields
one attempt, one notice and a null link; a failing transcription request
yields exactly one API request, exactly one failure notice carrying the
(re-thrown) error's message, and the only text ever inserted into the
document in that run is the audio link, so no transcription text is
inserted. -/
theorem failure_single_notice (st : PluginState) (env : StartEnv)
    (msg : String) (blob : Blob) (senv : SaveEnv) (e : String)
    (penv : ProcEnv) (he : HttpErr) :
    (st.recordingState.isRecording = false → env.media = .error msg →
      startRecording st env =
        ([.getUserMedia, .notice ("Cannot access microphone: " ++ msg)], st)) ∧
    (senv.createOutcome = .error e →
      saveAudioFile blob senv =
        ([.createBinary (audioFilePath blob.type senv) blob.data,
          .notice ("❌ Failed to save audio file: " ++ e)], none)) ∧
    (st.recordingState.audioChunks ≠ [] →
      st.settings.enableTranscription = true →
      st.settings.openaiApiKey ≠ "" →
      penv.transcribeEnv.httpOutcome = .error he →
      ((processRecording st penv).1 =
        (saveAudioFile (assembleBlob st.recordingState) penv.saveEnv).1 ++
        (match (saveAudioFile (assembleBlob st.recordingState)
            penv.saveEnv).2 with
         | some l => [Effect.insertText ("### Voice Note\n" ++ l ++ "\n\n")]
         | none => []) ++
        [Effect.notice "🔄 Transcribing...",
         Effect.apiRequest (mergeParts (formParts penv.transcribeEnv.boundary
           (chooseFilename st.recordingState.mimeType)
           st.recordingState.mimeType
           (assembleBlob st.recordingState).data)),
         Effect.notice ("❌ Transcription failed: " ++ mapHttpErr he)] ∧
       (processRecording st penv).1.countP
         (fun ef => match ef with
          | Effect.apiRequest _ => true
          | _ => false) = 1 ∧
       (processRecording st penv).1.countP
         (fun ef =>
           ef == Effect.notice ("❌ Transcription failed: " ++ mapHttpErr he)) =
         1 ∧
       (∀ t, Effect.insertText t ∈ (processRecording st penv).1 →
         ∃ l, (saveAudioFile (assembleBlob st.recordingState)
             penv.saveEnv).2 = some l ∧
           t = "### Voice Note\n" ++ l ++ "\n\n"))) := by
  refine ⟨?_, ?_, ?_⟩
  · intro h hm
    simp [startRecording, h, hm]
  · intro hc
    simp [saveAudioFile, hc]
  · intro hne hen hkey hhttp
    have h0 : ¬ st.recordingState.audioChunks.length = 0 := by simpa using hne
    have hcond : (st.settings.enableTranscription &&
        st.settings.openaiApiKey != "") = true := by
      simp [hen, hkey]
    cases hsave : penv.saveEnv.createOutcome with
    | ok u =>
      refine ⟨?_, ?_, ?_, fun t hmem => ?_⟩
      · simp [processRecording, h0, hcond, saveAudioFile, hsave,
          transcribeAudio, hkey, hhttp, assembleBlob]
      · simp [processRecording, h0, hcond, saveAudioFile, hsave,
          transcribeAudio, hkey, hhttp]
      · simp [processRecording, h0, hcond, saveAudioFile, hsave,
          transcribeAudio, hkey, hhttp,
          progressNotice_ne_transcribeNotice]
      · simp [processRecording, h0, hcond, saveAudioFile, hsave,
          transcribeAudio, hkey, hhttp] at hmem
        exact ⟨_, by simp [saveAudioFile, hsave], hmem⟩
    | error err =>
      refine ⟨?_, ?_, ?_, fun t hmem => ?_⟩
      · simp [processRecording, h0, hcond, saveAudioFile, hsave,
          transcribeAudio, hkey, hhttp, assembleBlob]
      · simp [processRecording, h0, hcond, saveAudioFile, hsave,
          transcribeAudio, hkey, hhttp]
      · simp [processRecording, h0, hcond, saveAudioFile, hsave,
          transcribeAudio, hkey, hhttp,
          progressNotice_ne_transcribeNotice,
          saveNotice_ne_transcribeNotice]
      · simp [processRecording, h0, hcond, saveAudioFile, hsave,
          transcribeAudio, hkey, hhttp] at hmem

set_option maxRecDepth 10000 in
theorem failure_single_notice_witness :
    startRecording ⟨⟨"", false⟩, RecordingState.init⟩
        ⟨.error "denied", fun _ => false, 0⟩ =
      ([.getUserMedia, .notice "Cannot access microphone: denied"],
        ⟨⟨"", false⟩, RecordingState.init⟩) ∧
    saveAudioFile ⟨[1], "w"⟩ ⟨"", "T", .error "disk full"⟩ =
      ([.createBinary "voice-note-T.webm" [1],
        .notice "❌ Failed to save audio file: disk full"], none) ∧
    (processRecording
        ⟨⟨"k", true⟩,
          { RecordingState.init with audioChunks := [⟨[1], "w"⟩] }⟩
        ⟨⟨"", "T", .ok ()⟩, ⟨"b", .error ⟨none, some "boom"⟩⟩⟩).1.countP
      (fun ef => match ef with
       | Effect.apiRequest _ => true
       | _ => false) = 1 ∧
    (processRecording
        ⟨⟨"k", true⟩,
          { RecordingState.init with audioChunks := [⟨[1], "w"⟩] }⟩
        ⟨⟨"", "T", .ok ()⟩, ⟨"b", .error ⟨none, some "boom"⟩⟩⟩).1.countP
      (fun ef => ef == Effect.notice "❌ Transcription failed: boom") = 1 := by
  refine ⟨?_, ?_, ?_, ?_⟩
  · exact (failure_single_notice ⟨⟨"", false⟩, RecordingState.init⟩
      ⟨.error "denied", fun _ => false, 0⟩ "denied" ⟨[1], "w"⟩
      ⟨"", "T", .error "disk full"⟩ "disk full"
      ⟨⟨"", "T", .ok ()⟩, ⟨"b", .error ⟨none, some "boom"⟩⟩⟩
      ⟨none, some "boom"⟩).1 rfl rfl
  · exact (failure_single_notice ⟨⟨"", false⟩, RecordingState.init⟩
      ⟨.error "denied", fun _ => false, 0⟩ "denied" ⟨[1], "w"⟩
      ⟨"", "T", .error "disk full"⟩ "disk full"
      ⟨⟨"", "T", .ok ()⟩, ⟨"b", .error ⟨none, some "boom"⟩⟩⟩
      ⟨none, some "boom"⟩).2.1 rfl
  · exact ((failure_single_notice
      ⟨⟨"k", true⟩, { RecordingState.init with audioChunks := [⟨[1], "w"⟩] }⟩
      ⟨.error "denied", fun _ => false, 0⟩ "denied" ⟨[1], "w"⟩
      ⟨"", "T", .error "disk full"⟩ "disk full"
      ⟨⟨"", "T", .ok ()⟩, ⟨"b", .error ⟨none, some "boom"⟩⟩⟩
      ⟨none, some "boom"⟩).2.2 (by decide) rfl (by decide) rfl).2.1
  · exact ((failure_single_notice
      ⟨⟨"k", true⟩, { RecordingState.init with audioChunks := [⟨[1], "w"⟩] }⟩
      ⟨.error "denied", fun _ => false, 0⟩ "denied" ⟨[1], "w"⟩
      ⟨"", "T", .error "disk full"⟩ "disk full"
      ⟨⟨"", "T", .ok ()⟩, ⟨"b", .error ⟨none, some "boom"⟩⟩⟩
      ⟨none, some "boom"⟩).2.2 (by decide) rfl (by decide) rfl).2.2.1

/-! ## Reachable plugin states -/

/-- One event of the plugin's event loop: a user toggle, a direct
start/stop, a fragment arrival, the recorder's stop callback, or a settings
change from the settings tab. -/
inductive PluginStep : PluginState → PluginState → Prop where
  | toggle {st : PluginState} (env : StartEnv) :
      PluginStep st (toggleRecording st env).2
  | start {st : PluginState} (env : StartEnv) :
      PluginStep st (startRecording st env).2
  | stop {st : PluginState} : PluginStep st (stopRecording st).2
  | dataAvail {st : PluginState} (d : Option Blob) :
      PluginStep st (onDataAvailable st d)
  | process {st : PluginState} (env : ProcEnv) :
      PluginStep st (processRecording st env).2
  | setSettings {st : PluginState} (s : VoiceNotesSettings) :
      PluginStep st { st with settings := s }

/-- The states reachable from plugin load (`onload` builds a fresh
`RecordingState` and loads the settings) by any sequence of events. -/
inductive ReachableState : PluginState → Prop where
  | init (stored : Option StoredData) :
      ReachableState ⟨loadSettings stored, RecordingState.init⟩
  | step {st st' : PluginState} :
      ReachableState st → PluginStep st st' → ReachableState st'

/-- `stopRecording` never changes the fragment sequence. -/
theorem stopRecording_chunks (st : PluginState) :
    (stopRecording st).2.recordingState.audioChunks =
      st.recordingState.audioChunks := by
  by_cases h : st.recordingState.isRecording <;> simp [stopRecording, h]

/-- `startRecording` either leaves the fragment sequence unchanged or
installs an empty one. -/
theorem startRecording_chunks (st : PluginState) (env : StartEnv) :
    (startRecording st env).2.recordingState.audioChunks =
      st.recordingState.audioChunks ∨
    (startRecording st env).2.recordingState.audioChunks = [] := by
  by_cases h : st.recordingState.isRecording
  · left; simp [startRecording, h]
  · cases hm : env.media with
    | error e => left; simp [startRecording, h, hm]
    | ok s => right; simp [startRecording, h, hm]

/-- `processRecording` either leaves the fragment sequence unchanged or
clears it. -/
theorem processRecording_chunks (st : PluginState) (env : ProcEnv) :
    (processRecording st env).2.recordingState.audioChunks =
      st.recordingState.audioChunks ∨
    (processRecording st env).2.recordingState.audioChunks = [] := by
  by_cases h : st.recordingState.audioChunks.length = 0
  · left; simp [processRecording, h]
  · right; simp [processRecording, h]

/-- Each event preserves positivity of all buffered fragment sizes. -/
theorem step_preserves_chunk_pos {st st' : PluginState}
    (hs : PluginStep st st')
    (ih : ∀ b ∈ st.recordingState.audioChunks, 0 < b.data.length) :
    ∀ b ∈ st'.recordingState.audioChunks, 0 < b.data.length := by
  have hofChunks :
      ∀ (c : List Blob), c = st.recordingState.audioChunks ∨ c = [] →
        ∀ b ∈ c, 0 < b.data.length := by
    rintro c (rfl | rfl)
    · exact ih
    · intro b hb
      simp at hb
  cases hs with
  | toggle env =>
    by_cases h : st.recordingState.isRecording
    · intro b hb
      apply ih
      rw [toggleRecording, if_pos h, stopRecording_chunks st] at hb
      exact hb
    · refine hofChunks _ ?_
      rw [toggleRecording, if_neg h]
      exact startRecording_chunks st env
  | start env => exact hofChunks _ (startRecording_chunks st env)
  | stop =>
    intro b hb
    apply ih
    rw [stopRecording_chunks st] at hb
    exact hb
  | process env => exact hofChunks _ (processRecording_chunks st env)
  | setSettings s => exact ih
  | dataAvail d =>
    cases d with
    | none => exact ih
    | some b =>
      by_cases hb : 0 < b.data.length
      · intro b' hb'
        simp [onDataAvailable, hb] at hb'
        rcases hb' with h1 | h2
        · exact ih b' h1
        · rw [h2]; exact hb
      · simpa [onDataAvailable, hb] using ih

/-- C8: at every reachable plugin state, every fragment stored in the
session's fragment sequence has strictly positive size — the
`ondataavailable` callback appends a fragment only when it exists and its
size is greater than zero, and no other event adds fragments. -/
theorem chunks_positive_invariant (st : PluginState)
    (h : ReachableState st) :
    ∀ b ∈ st.recordingState.audioChunks, 0 < b.data.length := by
  induction h with
  | init stored =>
    intro b hb
    simp [RecordingState.init] at hb
  | step hr hs ih => exact step_preserves_chunk_pos hs ih

theorem chunks_positive_invariant_witness :
    0 < (Blob.mk [5] "w").data.length :=
  chunks_positive_invariant
    (onDataAvailable ⟨loadSettings none, RecordingState.init⟩
      (some ⟨[5], "w"⟩))
    (ReachableState.step (ReachableState.init none)
      (PluginStep.dataAvail (some ⟨[5], "w"⟩)))
    ⟨[5], "w"⟩ (by decide)

end VoiceNotes
